import Mathlib

/-!
Verification development for the pobj object-registry library.

The Go source is shallowly embedded. Go reflection types and values become the
inductive types GoType and GoValue; the library's functions become Lean
functions over these; process panics are modelled by GoResult.panic; and Go's
(value, error) return pairs become pairs of options. Struct field types are
drawn from the non-recursive FieldType universe, which covers every field
shape the library's argument binder is exercised with (scalars, interfaces,
scanner-capable types and pointers to them).
-/

namespace Pobj

/-- Types allowed as struct fields in the model: strings, ints, the empty
interface, a scanner-capable named type (one whose pointer implements the
valueScanner interface, like scannableObject in the tests), and a pointer to
such a type. -/
inductive FieldType : Type where
  | fString
  | fInt
  | fAny
  | fScan (name : String)
  | fPtrScan (name : String)
deriving DecidableEq, Repr

/-- Model of a Go reflect.Type restricted to the shapes the library
manipulates: the context.Context interface, the empty interface, strings,
ints, struct types (name plus field list), pointer types, scanner-capable
named types, string-keyed map types (kept opaque), and the type of an invalid
reflect.Value. -/
inductive GoType : Type where
  | tCtx
  | tAny
  | tString
  | tInt
  | tStruct (name : String) (fields : List (String × FieldType))
  | tPtr (elem : GoType)
  | tScan (name : String)
  | tMap
  | tInvalid
deriving DecidableEq, Repr

/-- Model of a Go reflect.Value. Struct values carry their reflect.Type so
that Type() needs no recursion; pointer values carry their element type and an
optional pointee (none is a nil pointer); vScan models a value of a
scanner-capable type, remembering the value its Scan hook last received
(none when never scanned, i.e. the zero value); vIface is an interface-kinded
value (none is a nil interface); vInvalid is the zero reflect.Value. -/
inductive GoValue : Type where
  | vCtx
  | vString (s : String)
  | vInt (n : Int)
  | vStruct (typ : GoType) (fields : List (String × GoValue))
  | vPtr (elem : GoType) (pointee : Option GoValue)
  | vScan (name : String) (stored : Option GoValue)
  | vIface (dyn : Option GoValue)
  | vMap (keyIsString : Bool) (entries : List (String × GoValue))
  | vInvalid

/-- Outcome of a Go computation that can panic: either a value or a panic. -/
inductive GoResult (α : Type u) where
  | ok (val : α)
  | panic (msg : String)

/-- Whether a GoResult is a panic. -/
def GoResult.isPanic : GoResult α → Bool
  | .panic _ => true
  | .ok _ => false

/-- Whether a GoResult is a normal value. -/
def GoResult.isOk : GoResult α → Bool
  | .ok _ => true
  | .panic _ => false

/-- Model of reflect.Value.Type. -/
def typeOf : GoValue → GoType
  | .vCtx => .tCtx
  | .vString _ => .tString
  | .vInt _ => .tInt
  | .vStruct t _ => t
  | .vPtr e _ => .tPtr e
  | .vScan n _ => .tScan n
  | .vIface _ => .tAny
  | .vMap _ _ => .tMap
  | .vInvalid => .tInvalid

/-- GoType of a struct field type. -/
def FieldType.toGoType : FieldType → GoType
  | .fString => .tString
  | .fInt => .tInt
  | .fAny => .tAny
  | .fScan n => .tScan n
  | .fPtrScan n => .tPtr (.tScan n)

/-- Zero value of a struct field type. -/
def zeroField : FieldType → GoValue
  | .fString => .vString ""
  | .fInt => .vInt 0
  | .fAny => .vIface none
  | .fScan n => .vScan n none
  | .fPtrScan n => .vPtr (.tScan n) none

/-- Zero value of a Go type, as produced by reflect.New(t).Elem(). -/
def zeroValue : GoType → GoValue
  | .tCtx => .vIface none
  | .tAny => .vIface none
  | .tString => .vString ""
  | .tInt => .vInt 0
  | .tStruct n fs => .vStruct (.tStruct n fs) (fs.map (fun p => (p.1, zeroField p.2)))
  | .tPtr e => .vPtr e none
  | .tScan n => .vScan n none
  | .tMap => .vMap true []
  | .tInvalid => .vInvalid

/-- Strip leading pointers from a type, as the loops in Register, GetByType
and RegisterActions do. -/
def stripPtr : GoType → GoType
  | .tPtr e => stripPtr e
  | t => t

/-- Whether a GoValue is the zero reflect.Value. -/
def GoValue.isInvalid : GoValue → Bool
  | .vInvalid => true
  | _ => false

/-- Model of reflect.ValueOf applied to a value held in an `any`: the outer
interface is stripped, and a nil interface yields the invalid Value. -/
def reflectValueOf : GoValue → GoValue
  | .vIface (some v) => v
  | .vIface none => .vInvalid
  | v => v

/-- Model of the loop `for src.Kind() == reflect.Interface { src = src.Elem() }`
in assignValueTo. Unwrapping preserves the dynamic value; Elem of a nil
interface is the invalid Value. -/
def unwrapIface : GoValue → GoValue
  | .vIface (some v) => unwrapIface v
  | .vIface none => .vInvalid
  | v => v

/-- Name of a type, as reflect.Type.Name() returns it (empty for unnamed
types such as pointers and anonymous structs are modelled by their stored
name, which may be the empty string). -/
def GoType.name : GoType → String
  | .tCtx => "Context"
  | .tAny => ""
  | .tString => "string"
  | .tInt => "int"
  | .tStruct n _ => n
  | .tPtr _ => ""
  | .tScan n => n
  | .tMap => ""
  | .tInvalid => ""

/-- Rendering of a struct field type, as the %T verb prints it. -/
def fieldTypeRepr : FieldType → String
  | .fString => "string"
  | .fInt => "int"
  | .fAny => "interface \x7b\x7d"
  | .fScan n => n
  | .fPtrScan n => "*" ++ n

/-- Rendering of a type, as the %T verb prints it. -/
def goTypeRepr : GoType → String
  | .tCtx => "context.Context"
  | .tAny => "interface \x7b\x7d"
  | .tString => "string"
  | .tInt => "int"
  | .tStruct n fs =>
      if n = "" then
        "struct \x7b " ++
          String.intercalate "; " (fs.map (fun p => p.1 ++ " " ++ fieldTypeRepr p.2)) ++
          " \x7d"
      else n
  | .tPtr e => "*" ++ goTypeRepr e
  | .tScan n => n
  | .tMap => "map[string]interface \x7b\x7d"
  | .tInvalid => "<invalid>"

/-- The %T rendering of a value held in an `any` argument. -/
def dynTypeRepr (v : GoValue) : String :=
  match reflectValueOf v with
  | .vInvalid => "<nil>"
  | w => goTypeRepr (typeOf w)

/-- Errors the library produces, with the data each error message embeds. -/
inductive PErr : Type where
  | errUnknownType
  | errMissingAction
  | badFetchType (expected actual : String)
  | incompatibleAssign (srcName dstName : String)
  | mapKeyNotString
  | argMustBeStruct (dynType : String)
  | userError (msg : String)
deriving DecidableEq, Repr

/-- The Error() string of each modelled error, mirroring errors.go and the
fmt.Errorf calls of the source. -/
def PErr.message : PErr → String
  | .errUnknownType => "pobj: unknown object type"
  | .errMissingAction => "pobj: no such action exists"
  | .badFetchType e a =>
      "pobj: bad type returned by Fetch, should have returned a " ++ e ++
        " but returned a " ++ a
  | .incompatibleAssign s d =>
      "incompatible source field type \"" ++ s ++ "\" assign to \"" ++ d ++ "\""
  | .mapKeyNotString => "map key must be a string"
  | .argMustBeStruct t => "arg must be a struct, " ++ t ++ " passed"
  | .userError m => m

/-- Go assignability restricted to the modelled universe: identical types, or
any type into the empty interface. -/
def AssignableTo (src dst : GoType) : Bool :=
  src == dst || dst == .tAny

/-- Go convertibility restricted to the modelled universe: assignable types,
int to string, and struct types with identical field lists. -/
def ConvertibleTo (src dst : GoType) : Bool :=
  AssignableTo src dst ||
    (match src, dst with
     | .tInt, .tString => true
     | .tStruct _ fs, .tStruct _ gs => fs == gs
     | _, _ => false)

/-- Model of reflect.Value.Convert for the convertible pairs above. -/
def convert (v : GoValue) (dst : GoType) : GoValue :=
  match v, dst with
  | .vInt n, .tString => .vString (String.mk [Char.ofNat n.toNat])
  | .vStruct _ fs, .tStruct m gs => .vStruct (.tStruct m gs) fs
  | v, _ => v

/-- Whether a type's Kind() is reflect.Pointer. -/
def isPtrKind : GoType → Bool
  | .tPtr _ => true
  | _ => false

/-- Whether a type implements the valueScanner interface: in the modelled
universe exactly the pointers to scanner-capable named types (Scan has a
pointer receiver). -/
def implementsScanner : GoType → Bool
  | .tPtr (.tScan _) => true
  | _ => false

/-- Whether a type implements context.Context. -/
def implementsCtx : GoType → Bool
  | .tCtx => true
  | _ => false

/-- Whether a type's Kind() is reflect.Struct: struct types and the
scanner-capable named types (which are structs). -/
def kindStruct : GoType → Bool
  | .tStruct _ _ => true
  | .tScan _ => true
  | _ => false

/-- Embedding of assignValueTo (static.go). The destination is a struct field
of type dstt holding dst; canAddr models dst.CanAddr(). The source value is
first stripped of interface wrappers; a nil dynamic source leaves the zero
reflect.Value, on which the srct := src.Type() read panics inside reflect
before any coercion is tried. Otherwise assignment, conversion and the two
valueScanner paths are tried in order; the result is the new field value.
Scanning is modelled by storing the received value in the vScan. -/
def assignValueTo (dstt : GoType) (dst : GoValue) (canAddr : Bool) (src0 : GoValue) :
    GoResult (Except PErr GoValue) :=
  let src := unwrapIface src0
  if src.isInvalid then .panic "reflect: call of reflect.Value.Type on zero Value"
  else
    let srct := typeOf src
    if AssignableTo srct dstt then .ok (.ok src)
    else if ConvertibleTo srct dstt then .ok (.ok (convert src dstt))
    else if isPtrKind dstt && implementsScanner dstt then
      match dstt, dst with
      | .tPtr (.tScan n), _ => .ok (.ok (.vPtr (.tScan n) (some (.vScan n (some src)))))
      | _, _ => .ok (.error (.incompatibleAssign srct.name dstt.name))
    else if canAddr && implementsScanner (.tPtr dstt) then
      match dstt with
      | .tScan n => .ok (.ok (.vScan n (some src)))
      | _ => .ok (.error (.incompatibleAssign srct.name dstt.name))
    else .ok (.error (.incompatibleAssign srct.name dstt.name))

/-- One returned value of a Go callable, tagged by whether its declared type
implements the error interface. An error-typed return slot may hold a nil
error (none). -/
inductive RetVal : Type where
  | errVal (e : Option PErr)
  | outVal (v : GoValue)

/-- One iteration of the parseResult loop (static.go): an error-typed value
lands in the error result, any other value in the output result. -/
def parseStep (acc : Option GoValue × Option PErr) (r : RetVal) :
    Option GoValue × Option PErr :=
  match r with
  | .errVal e => (acc.1, e)
  | .outVal v => (some v, acc.2)

/-- Embedding of StaticMethod.parseResult (static.go): scan the returned
values left to right, the error-typed ones landing in the error result and
every other one in the output result. -/
def parseResult (res : List RetVal) : Option GoValue × Option PErr :=
  res.foldl parseStep (none, none)

/-- The last non-error returned value, per the specification's wording. -/
def lastOutput (res : List RetVal) : Option GoValue :=
  (res.filterMap (fun r => match r with | .outVal v => some v | .errVal _ => none)).getLast?

/-- The last error-typed returned slot, if any, per the specification's
wording (its payload may itself be a nil error). -/
def lastErrorSlot (res : List RetVal) : Option (Option PErr) :=
  (res.filterMap (fun r => match r with | .errVal e => some e | .outVal _ => none)).getLast?

/-- The error result per the specification: the payload of the last
error-typed returned slot, nil when there is none. -/
def lastError (res : List RetVal) : Option PErr :=
  (lastErrorSlot res).getD none

/-- Embedding of the StaticMethod descriptor (static.go). The -1 sentinels of
the source become none. fn is the underlying function's behavior on a fully
assembled argument vector. -/
structure StaticMethod : Type where
  fn : List GoValue → List RetVal
  cnt : Nat
  ctxPos : Option Nat
  argPos : Option Nat
  arg : Option GoType
  argPtr : Bool

/-- Input to the Static builder: a function value with its declared parameter
types and behavior, or a non-function value. -/
inductive MethodArg : Type where
  | func (params : List GoType) (body : List GoValue → List RetVal)
  | nonFunc (v : GoValue)

/-- One pointer unwrap, as the `in = in.Elem()` step of Static performs on a
pointer-kinded parameter. -/
def elemOnce : GoType → GoType
  | .tPtr e => e
  | u => u

/-- Record argPtr when the parameter was pointer-kinded, as Static does. -/
def setArgPtrIfPtr (t : GoType) (acc : StaticMethod) : StaticMethod :=
  match t with
  | .tPtr _ => { acc with argPtr := true }
  | _ => acc

/-- Record the struct argument slot at index i for parameter type t: argPtr
when the parameter was a pointer, the slot position, and the unwrapped
argument type. -/
def withArgSlot (acc : StaticMethod) (i : Nat) (t : GoType) : StaticMethod :=
  { setArgPtrIfPtr t acc with argPos := some i, arg := some (elemOnce t) }

/-- The parameter-classification loop of Static (static.go): i is the index of
the next parameter, acc the descriptor built so far. -/
def staticLoop (i : Nat) (params : List GoType) (acc : StaticMethod) :
    GoResult StaticMethod :=
  match params with
  | [] => .ok acc
  | t :: rest =>
    if implementsCtx t then
      if acc.ctxPos.isSome then .panic "method taking multiple ctx arguments"
      else staticLoop (i + 1) rest { acc with ctxPos := some i }
    else
      if kindStruct (elemOnce t) then
        if (setArgPtrIfPtr t acc).argPos.isSome then
          .panic "method taking multiple arg arguments"
        else staticLoop (i + 1) rest (withArgSlot acc i t)
      else .panic ("method has unknown type of argument " ++ goTypeRepr (elemOnce t))

/-- Whether a parameter type is a supported data shape for Static: a struct or
a pointer to a struct (after the single pointer unwrap the source performs). -/
def supportedData (t : GoType) : Bool :=
  kindStruct (elemOnce t)

/-- Embedding of Static (static.go): panic when not given a function,
otherwise classify every parameter as context slot or struct argument slot. -/
def Static (method : MethodArg) : GoResult StaticMethod :=
  match method with
  | .nonFunc _ => .panic "static method not a method"
  | .func params body =>
      staticLoop 0 params
        { fn := body, cnt := params.length, ctxPos := none, argPos := none,
          arg := none, argPtr := false }

/-- Assemble the positional argument vector: make([]reflect.Value, cnt) with
the context installed at ctxPos and the bound argument (when present) at
argPos; every slot never written stays the invalid zero Value. -/
def mkArgs (cnt : Nat) (ctxPos : Option Nat) (ctx : GoValue) (argPos : Option Nat)
    (argVal : Option GoValue) : List GoValue :=
  (List.range cnt).map (fun i =>
    if ctxPos = some i then ctx
    else if argPos = some i then argVal.getD .vInvalid
    else .vInvalid)

/-- Model of s.fn.Call(args) followed by parseResult: reflect panics when any
argument slot is the zero Value, otherwise the function runs and its returned
values are classified. -/
def StaticMethod.callReflect (s : StaticMethod) (args : List GoValue) :
    GoResult (Option GoValue × Option PErr) :=
  if args.any GoValue.isInvalid then .panic "reflect: Call using zero Value argument"
  else .ok (parseResult (s.fn args))

/-- Field list of the argument struct type (empty for the opaquely modelled
scanner structs). -/
def fieldsOfType : GoType → List (String × FieldType)
  | .tStruct _ fs => fs
  | _ => []

/-- Freshly allocated argument fields, reflect.New(s.arg).Elem() style. -/
def zeroFields (tfs : List (String × FieldType)) : List (String × GoValue) :=
  tfs.map (fun p => (p.1, zeroField p.2))

/-- Current value of the destination field named k. -/
def getField (fs : List (String × GoValue)) (k : String) : GoValue :=
  match fs.find? (fun p => p.1 == k) with
  | some p => p.2
  | none => .vInvalid

/-- Write v into the destination field named k. -/
def setField (fs : List (String × GoValue)) (k : String) (v : GoValue) :
    List (String × GoValue) :=
  fs.map (fun p => if p.1 == k then (p.1, v) else p)

/-- The shared per-entry loop of CallArg (static.go): for every source entry
(a struct field or a map key/value pair), look the name up among the
destination struct's fields with FieldByName, silently skip it when absent,
and otherwise coerce the value into the field with assignValueTo, propagating
its binding errors and reflect panics. -/
def bindEntries (tfs : List (String × FieldType)) (dst : List (String × GoValue)) :
    List (String × GoValue) → GoResult (Except PErr (List (String × GoValue)))
  | [] => .ok (.ok dst)
  | (k, v) :: rest =>
    match tfs.find? (fun p => p.1 == k) with
    | none => bindEntries tfs dst rest
    | some (_, ft) =>
      match assignValueTo ft.toGoType (getField dst k) true v with
      | .panic m => .panic m
      | .ok (.error e) => .ok (.error e)
      | .ok (.ok v') => bindEntries tfs (setField dst k v') rest

/-- Rebuild the bound argument value from its bound fields. -/
def rebuildArg (t : GoType) (fs : List (String × GoValue)) : GoValue :=
  match t with
  | .tStruct n tfs => .vStruct (.tStruct n tfs) fs
  | u => zeroValue u

/-- Source entries of a struct-kinded input value (scanner-typed values are
struct-kinded but modelled opaquely, with no visible fields). -/
def structEntries : GoValue → Option (List (String × GoValue))
  | .vStruct _ fs => some fs
  | .vScan _ _ => some []
  | _ => none

/-- Embedding of StaticMethod.CallArg (static.go). The input arg is inspected
at runtime: a nil pointer or nil interface short-circuits to the call with the
argument slot never written; a struct is bound field by field; a string-keyed
map is bound entry by entry; anything else is a binding error. The bound
argument is passed as a pointer when the callable declared one. -/
def StaticMethod.CallArg (s : StaticMethod) (ctx : GoValue) (arg : GoValue) :
    GoResult (Option GoValue × Option PErr) :=
  match s.argPos, s.arg with
  | some pos, some argT =>
    let argIn := reflectValueOf arg
    match argIn with
    | .vPtr _ none => s.callReflect (mkArgs s.cnt s.ctxPos ctx (some pos) none)
    | _ =>
      let argIn1 := match argIn with | .vPtr _ (some e) => e | v => v
      match argIn1 with
      | .vIface none => s.callReflect (mkArgs s.cnt s.ctxPos ctx (some pos) none)
      | _ =>
        let tfs := fieldsOfType argT
        let finish := fun (ents : List (String × GoValue)) =>
          match bindEntries tfs (zeroFields tfs) ents with
          | .panic m => GoResult.panic m
          | .ok (.error e) => GoResult.ok ((none : Option GoValue), some e)
          | .ok (.ok fs') =>
            let bound := rebuildArg argT fs'
            let argV := if s.argPtr then GoValue.vPtr argT (some bound) else bound
            s.callReflect (mkArgs s.cnt s.ctxPos ctx (some pos) (some argV))
        match structEntries argIn1 with
        | some ents => finish ents
        | none =>
          match argIn1 with
          | .vMap keyIsString ents =>
              if keyIsString then finish ents
              else .ok (none, some .mapKeyNotString)
          | _ => .ok (none, some (.argMustBeStruct (dynTypeRepr arg)))
  | _, _ => s.callReflect (mkArgs s.cnt s.ctxPos ctx none none)

/-- Modelled from the spec: typutil.Callable, the analyzed callable the newer
registry stores (the typutil dependency is not under src/). It carries the
ordered declared types of its data slots and its CallArg invocation behavior
on a single bound argument, returning the (value, error) pair. -/
structure Callable : Type where
  argTypes : List GoType
  callArg : GoValue → Option GoValue × Option PErr

/-- Modelled from the spec: typutil.Callable.IsStringArg(n) decides whether
the n-th data slot of the callable is scalar-string-typed. -/
def Callable.IsStringArg (c : Callable) (n : Nat) : Bool :=
  c.argTypes.get? n == some .tString

/-- Embedding of ObjectActions (obj.go): the four optional action slots. -/
structure ObjectActions : Type where
  fetch : Option Callable
  listA : Option Callable
  clearA : Option Callable
  createA : Option Callable

/-- Embedding of Method (obj.go): a registered method with metadata. The
non-owning object back-reference of the source is dropped (it is only read by
the String/Object accessors, which are not modelled). -/
structure Method : Type where
  callable : Callable
  doc : String
  requiresInstance : Bool
  name : String

/-- Embedding of Object (obj.go): a node of the registry tree. The non-owning
parent back-reference of the source is dropped (only the String accessor reads
it); Go's nil maps are modelled by empty lists. -/
inductive Object : Type where
  | mk (name : String) (typ : Option GoType) (children : List (String × Object))
       (methods : List (String × Method)) (statics : List (String × Callable))
       (action : Option ObjectActions) (doc : String)

/-- Name of an object. -/
def Object.name : Object → String
  | .mk n _ _ _ _ _ _ => n

/-- Registered type of an object, none for pure namespace nodes. -/
def Object.typ : Object → Option GoType
  | .mk _ t _ _ _ _ _ => t

/-- Children of an object. -/
def Object.children : Object → List (String × Object)
  | .mk _ _ c _ _ _ _ => c

/-- Methods map of an object. -/
def Object.methods : Object → List (String × Method)
  | .mk _ _ _ m _ _ _ => m

/-- Deprecated statics map of an object. -/
def Object.statics : Object → List (String × Callable)
  | .mk _ _ _ _ s _ _ => s

/-- Action set of an object. -/
def Object.action : Object → Option ObjectActions
  | .mk _ _ _ _ _ a _ => a

/-- Documentation string of an object. -/
def Object.docString : Object → String
  | .mk _ _ _ _ _ _ d => d

/-- Replace the registered type of an object. -/
def Object.setTyp (o : Object) (t : GoType) : Object :=
  match o with
  | .mk n _ c m s a d => .mk n (some t) c m s a d

/-- Replace the action set of an object. -/
def Object.setAction (o : Object) (a : Option ObjectActions) : Object :=
  match o with
  | .mk n t c m s _ d => .mk n t c m s a d

/-- Replace the children of an object. -/
def Object.setChildren (o : Object) (c : List (String × Object)) : Object :=
  match o with
  | .mk n t _ m s a d => .mk n t c m s a d

/-- A freshly created path node, holding only its name segment. -/
def newObject (name : String) : Object :=
  .mk name none [] [] [] none ""

/-- Character-level worker for splitPath: cur holds the reversed characters of
the segment being accumulated. -/
def splitPathChars (cur : List Char) : List Char → List String
  | [] => [String.mk cur.reverse]
  | c :: rest =>
    if c = '/' then String.mk cur.reverse :: splitPathChars [] rest
    else splitPathChars (c :: cur) rest

/-- Model of strings.Split(p, "/"), which yields one empty segment for the
empty path. -/
def splitPath (p : String) : List String :=
  splitPathChars [] p.toList

/-- Embedding of lookup(p, false) (obj.go): pure tree descent, absent when any
segment is missing. -/
def lookup : Object → List String → Option Object
  | o, [] => some o
  | o, s :: rest =>
    match o.children.find? (fun p => p.1 == s) with
    | some pc => lookup pc.2 rest
    | none => none

/-- The node lookup(p, true) (obj.go) returns: descend, materializing missing
children. Returned separately from the rewritten tree because the Go code
mutates in place. -/
def lookupGet : Object → List String → Object
  | o, [] => o
  | o, s :: rest =>
    match o.children.find? (fun p => p.1 == s) with
    | some pc => lookupGet pc.2 rest
    | none => lookupGet (newObject s) rest

/-- The tree after lookup(p, true) followed by mutating the found node with f:
descend, materializing missing children, and rewrite the terminal node. -/
def lookupSet (o : Object) (segs : List String) (f : Object → Object) : Object :=
  match segs with
  | [] => f o
  | s :: rest =>
    match o.children.find? (fun p => p.1 == s) with
    | some _ =>
        o.setChildren (o.children.map
          (fun pc => if pc.1 == s then (pc.1, lookupSet pc.2 rest f) else pc))
    | none =>
        o.setChildren (o.children ++ [(s, lookupSet (newObject s) rest f)])

/-- The registry's process-wide state: the root object and the type index
(reg.go, obj.go). The Go index stores *Object pointers; a node is identified
here by its path from the root, which registration never moves. -/
structure Registry : Type where
  root : Object
  typLookup : List (GoType × List String)

/-- The empty initial registry: a root with an empty children map. -/
def Registry.empty : Registry :=
  { root := newObject "", typLookup := [] }

/-- Embedding of Get (obj.go): pure lookup by path. -/
def Get (reg : Registry) (name : String) : Option Object :=
  lookup reg.root (splitPath name)

/-- Embedding of GetByType (obj.go): strip pointers from the type, then follow
the type index. -/
def GetByType (reg : Registry) (t : GoType) : Option Object :=
  match reg.typLookup.find? (fun p => p.1 == stripPtr (.tPtr t)) with
  | some pr => lookup reg.root pr.2
  | none => none

/-- Embedding of Object.New (obj.go): nil without a type, otherwise a pointer
to a freshly allocated zero value of the registered type. -/
def Object.New (o : Object) : Option GoValue :=
  match o.typ with
  | none => none
  | some t => some (.vPtr t (some (zeroValue t)))

/-- Embedding of Register[T] (reg.go): walk/create the path, panic when the
terminal node already has a type, otherwise install the pointer-stripped type
and index it. -/
def Register (reg : Registry) (t : GoType) (name : String) : GoResult Registry :=
  let segs := splitPath name
  let o := lookupGet reg.root segs
  if o.typ.isSome then
    .panic ("multiple registrations for type " ++ name)
  else
    let st := stripPtr (.tPtr t)
    .ok { root := lookupSet reg.root segs (fun node => node.setTyp st),
          typLookup := (st, segs) :: reg.typLookup }

/-- Embedding of RegisterActions[T] (reg.go): as Register, additionally
attaching the action set to the node. -/
def RegisterActions (reg : Registry) (t : GoType) (name : String)
    (actions : ObjectActions) : GoResult Registry :=
  let segs := splitPath name
  let o := lookupGet reg.root segs
  if o.typ.isSome then
    .panic ("multiple registrations for type " ++ name)
  else
    let st := stripPtr (.tPtr t)
    .ok { root := lookupSet reg.root segs
            (fun node => (node.setTyp st).setAction (some actions)),
          typLookup := (st, segs) :: reg.typLookup }

/-- Embedding of Object.Child (obj.go) with its explicit nil-receiver guard:
the receiver is an optional object, as produced by a possibly failed Get. -/
def Object.Child (o : Option Object) (name : String) : Option Object :=
  match o with
  | none => none
  | some o =>
    match o.children.find? (fun p => p.1 == name) with
    | some pc => some pc.2
    | none => none

/-- Embedding of Object.Static (obj.go): nil-receiver safe; the methods map is
consulted first, then the deprecated statics map. -/
def Object.Static (o : Option Object) (name : String) : Option Callable :=
  match o with
  | none => none
  | some o =>
    match o.methods.find? (fun p => p.1 == name) with
    | some pm => some pm.2.callable
    | none =>
      match o.statics.find? (fun p => p.1 == name) with
      | some pc => some pc.2
      | none => none

/-- Embedding of Object.Method (obj.go): nil-receiver safe lookup of the
method with its metadata. -/
def Object.Method (o : Option Object) (name : String) : Option Method :=
  match o with
  | none => none
  | some o => (o.methods.find? (fun p => p.1 == name)).map (fun pm => pm.2)

/-- Embedding of Object.Methods (obj.go): nil-receiver safe; nil when the
receiver is nil or it has no methods map. -/
def Object.Methods (o : Option Object) : Option (List String) :=
  match o with
  | none => none
  | some o =>
    if o.methods.isEmpty then none
    else some (o.methods.map (fun pm => pm.1))

/-- Embedding of Object.Children (obj.go): nil-receiver safe; nil when the
receiver is nil or it has no children map. -/
def Object.Children (o : Option Object) : Option (List String) :=
  match o with
  | none => none
  | some o =>
    if o.children.isEmpty then none
    else some (o.children.map (fun pc => pc.1))

/-- Embedding of Object.Doc (obj.go): nil-receiver safe documentation read. -/
def Object.Doc (o : Option Object) : String :=
  match o with
  | none => ""
  | some o => o.docString

/-- Embedding of Object.ById (helper.go): missing-action errors when the node
has no action set or no Fetch slot; otherwise the Fetch callable is invoked,
with the raw id when its first data slot is string-typed and with the wrapped
record struct with the single field Id otherwise. -/
def Object.ById (o : Object) (id : String) : Option GoValue × Option PErr :=
  match o.action with
  | none => (none, some .errMissingAction)
  | some act =>
    match act.fetch with
    | none => (none, some .errMissingAction)
    | some get =>
      if get.IsStringArg 0 then get.callArg (.vString id)
      else get.callArg (.vStruct (.tStruct "" [("Id", .fString)]) [("Id", .vString id)])

/-- Embedding of the generic ById[T] (helper.go): resolve the node for T via
the type index, delegate to Object.ById, then assert the result's dynamic type
is *T, building the bad-type error message from both type renderings when the
assertion fails. -/
def ById (reg : Registry) (t : GoType) (id : String) : Option GoValue × Option PErr :=
  match GetByType reg t with
  | none => (none, some .errUnknownType)
  | some o =>
    match o.ById id with
    | (_, some err) => (none, some err)
    | (res, none) =>
      match res with
      | some v =>
        if typeOf v = .tPtr t then (some v, none)
        else (none, some (.badFetchType (goTypeRepr (.tPtr t)) (goTypeRepr (typeOf v))))
      | none => (none, some (.badFetchType (goTypeRepr (.tPtr t)) "<nil>"))

/-! Concrete fixtures used by witnesses and counterexamples, mirroring the
methods and objects of the library's tests. -/

/-- The anonymous struct type with a single string field A. -/
def structAString : GoType := .tStruct "" [("A", .fString)]

/-- Behavior of a function taking one struct argument and returning its A
field. -/
def aFieldMethodBody : List GoValue → List RetVal := fun args =>
  match args with
  | [.vStruct _ fs] => [.outVal (getField fs "A")]
  | _ => []

/-- The StaticMethod descriptor Static builds for aFieldMethodBody. -/
def aFieldMethod : StaticMethod :=
  { fn := aFieldMethodBody, cnt := 1, ctxPos := none, argPos := some 0,
    arg := some structAString, argPtr := false }

/-- A Fetch callable whose first data slot is string-typed and which echoes
its argument back as the result. -/
def echoCallable : Callable :=
  { argTypes := [.tString], callArg := fun v => (some v, none) }

/-- Action set holding echoCallable as its Fetch slot. -/
def echoActions : ObjectActions :=
  { fetch := some echoCallable, listA := none, clearA := none, createA := none }

/-- An object carrying echoActions. -/
def echoObject : Object := .mk "s" none [] [] [] (some echoActions) ""

/-- A Fetch callable whose first data slot is a struct and which echoes its
argument back as the result. -/
def wrapCallable : Callable :=
  { argTypes := [.tStruct "" [("Id", .fString)]], callArg := fun v => (some v, none) }

/-- Action set holding wrapCallable as its Fetch slot. -/
def wrapActions : ObjectActions :=
  { fetch := some wrapCallable, listA := none, clearA := none, createA := none }

/-- An object carrying wrapActions. -/
def wrapObject : Object := .mk "w" none [] [] [] (some wrapActions) ""

/-- A concrete record type for registration scenarios. -/
def tT1 : GoType := .tStruct "T1" []

/-- An action set with all four slots empty. -/
def emptyActions : ObjectActions :=
  { fetch := none, listA := none, clearA := none, createA := none }

/-- The registry obtained by registering tT1 at path p in the empty
registry. -/
def regP1 : Registry :=
  { root := lookupSet Registry.empty.root (splitPath "p")
      (fun node => node.setTyp (stripPtr (.tPtr tT1))),
    typLookup := [(stripPtr (.tPtr tT1), splitPath "p")] }

/-- A Fetch callable returning a plain string, the wrong dynamic type for any
pointer assertion, as in the edge-case test. -/
def wrongFetch : Callable :=
  { argTypes := [.tString], callArg := fun _ => (some (.vString "wrong type"), none) }

/-- Action set carrying wrongFetch as its Fetch slot. -/
def badActions : ObjectActions :=
  { fetch := some wrongFetch, listA := none, clearA := none, createA := none }

/-- The BadType record of the edge-case test. -/
def tBad : GoType := .tStruct "BadType" []

/-- Registry with tBad registered at a path together with badActions. -/
def regBad : Registry :=
  match RegisterActions Registry.empty tBad "edge" badActions with
  | .ok r => r
  | .panic _ => Registry.empty

/-- The node regBad resolves for tBad. -/
def oBad : Object :=
  match GetByType regBad tBad with
  | some o => o
  | none => newObject ""

/-! Claim theorems. -/

/-- C10: every read accessor called on a nil Object receiver - Child, Static,
Method, Methods, Children, Doc - returns nil (the empty string for Doc)
rather than panicking, so lookups chained off a failed Get are safe. -/
theorem nil_receiver_accessors (name : String) :
    Object.Child none name = none ∧
    Object.Static none name = none ∧
    Object.Method none name = none ∧
    Object.Methods none = none ∧
    Object.Children none = none ∧
    Object.Doc none = "" :=
  ⟨rfl, rfl, rfl, rfl, rfl, rfl⟩

/-- Witness for nil_receiver_accessors at a concrete name. -/
theorem nil_receiver_accessors_witness :
    Object.Child none "anything" = none ∧
    Object.Static none "anything" = none ∧
    Object.Method none "anything" = none ∧
    Object.Methods none = none ∧
    Object.Children none = none ∧
    Object.Doc none = "" :=
  nil_receiver_accessors "anything"

/-- C1: with a non-nil action set and Fetch slot, Object.ById invokes the
Fetch callable with the raw id string exactly when the callable's first data
slot is string-typed, and with the single-field record keyed Id holding the id
otherwise. -/
theorem byId_fetch_argument (o : Object) (act : ObjectActions) (get : Callable)
    (id : String) (ha : o.action = some act) (hf : act.fetch = some get) :
    (get.IsStringArg 0 = true → o.ById id = get.callArg (.vString id)) ∧
    (get.IsStringArg 0 = false →
      o.ById id
        = get.callArg (.vStruct (.tStruct "" [("Id", .fString)]) [("Id", .vString id)])) := by
  constructor <;> intro h <;> simp [Object.ById, ha, hf, h]

/-- Witness for byId_fetch_argument at both concrete dispatch shapes. -/
theorem byId_fetch_argument_witness :
    (echoObject.action = some echoActions ∧ echoActions.fetch = some echoCallable ∧
      echoCallable.IsStringArg 0 = true ∧
      echoObject.ById "id1" = echoCallable.callArg (.vString "id1")) ∧
    (wrapObject.action = some wrapActions ∧ wrapActions.fetch = some wrapCallable ∧
      wrapCallable.IsStringArg 0 = false ∧
      wrapObject.ById "id1"
        = wrapCallable.callArg
            (.vStruct (.tStruct "" [("Id", .fString)]) [("Id", .vString "id1")])) :=
  ⟨⟨rfl, rfl, rfl,
    (byId_fetch_argument echoObject echoActions echoCallable "id1" rfl rfl).1 rfl⟩,
   ⟨rfl, rfl, rfl,
    (byId_fetch_argument wrapObject wrapActions wrapCallable "id1" rfl rfl).2 rfl⟩⟩

/-- C5 counterexample: binding a nil dynamic source (a nil held in an any,
as a map entry or any-typed struct field delivers it) into a string-typed
field satisfies none of the four coercion steps, so the claim as stated
mandates the incompatible-type error; the code instead panics inside reflect
on src.Type() before the chain is tried, and the panic is reachable through
CallArg. -/
theorem assignValueTo_nil_source_cex :
    assignValueTo .tString (.vString "") true (.vIface none)
      = .panic "reflect: call of reflect.Value.Type on zero Value" ∧
    AssignableTo (typeOf (unwrapIface (.vIface none))) .tString = false ∧
    ConvertibleTo (typeOf (unwrapIface (.vIface none))) .tString = false ∧
    implementsScanner .tString = false ∧
    implementsScanner (.tPtr .tString) = false ∧
    aFieldMethod.CallArg .vCtx (.vMap true [("A", .vIface none)])
      = .panic "reflect: call of reflect.Value.Type on zero Value" :=
  ⟨rfl, rfl, rfl, rfl, rfl, rfl⟩

/-- C5 (amended): for every source value whose interface-stripped dynamic
value is non-nil, assignValueTo tries, in order, direct assignment,
conversion, the valueScanner hook on a pointer-kinded destination type, and
the valueScanner hook through the address of an addressable destination, the
hook receiving the interface-stripped dynamic source value verbatim; when
nothing applies it fails with the incompatible-type error naming both the
source and destination types. A source whose dynamic value is nil instead
panics inside reflect, on reading the type of the zero Value, before the
chain is tried. -/
theorem assignValueTo_coercion_order (dstt : GoType) (dst : GoValue) (ca : Bool)
    (src0 : GoValue) :
    ((unwrapIface src0).isInvalid = false →
      AssignableTo (typeOf (unwrapIface src0)) dstt = true →
      assignValueTo dstt dst ca src0 = .ok (.ok (unwrapIface src0))) ∧
    ((unwrapIface src0).isInvalid = false →
      AssignableTo (typeOf (unwrapIface src0)) dstt = false →
      ConvertibleTo (typeOf (unwrapIface src0)) dstt = true →
      assignValueTo dstt dst ca src0 = .ok (.ok (convert (unwrapIface src0) dstt))) ∧
    (∀ n, dstt = .tPtr (.tScan n) →
      (unwrapIface src0).isInvalid = false →
      AssignableTo (typeOf (unwrapIface src0)) dstt = false →
      ConvertibleTo (typeOf (unwrapIface src0)) dstt = false →
      assignValueTo dstt dst ca src0
        = .ok (.ok (.vPtr (.tScan n) (some (.vScan n (some (unwrapIface src0))))))) ∧
    (∀ n, dstt = .tScan n → ca = true →
      (unwrapIface src0).isInvalid = false →
      AssignableTo (typeOf (unwrapIface src0)) dstt = false →
      ConvertibleTo (typeOf (unwrapIface src0)) dstt = false →
      assignValueTo dstt dst ca src0 = .ok (.ok (.vScan n (some (unwrapIface src0))))) ∧
    ((unwrapIface src0).isInvalid = false →
      AssignableTo (typeOf (unwrapIface src0)) dstt = false →
      ConvertibleTo (typeOf (unwrapIface src0)) dstt = false →
      implementsScanner dstt = false →
      (ca && implementsScanner (.tPtr dstt)) = false →
      assignValueTo dstt dst ca src0
        = .ok (.error (.incompatibleAssign (typeOf (unwrapIface src0)).name dstt.name))) ∧
    ((unwrapIface src0).isInvalid = true →
      assignValueTo dstt dst ca src0
        = .panic "reflect: call of reflect.Value.Type on zero Value") := by
  refine ⟨?_, ?_, ?_, ?_, ?_, ?_⟩
  · intro hv h
    simp [assignValueTo, hv, h]
  · intro hv h1 h2
    simp [assignValueTo, hv, h1, h2]
  · intro n hd hv h1 h2
    subst hd
    simp [assignValueTo, hv, h1, h2, isPtrKind, implementsScanner]
  · intro n hd hca hv h1 h2
    subst hd hca
    simp [assignValueTo, hv, h1, h2, isPtrKind, implementsScanner]
  · intro hv h1 h2 h3 h4
    simp [assignValueTo, hv, h1, h2, h3, h4]
  · intro hv
    simp [assignValueTo, hv]

/-- Witness for assignValueTo_coercion_order: a string assigned directly, a
scanner-typed field receiving the stripped dynamic value, and the panic at a
nil dynamic source. -/
theorem assignValueTo_coercion_order_witness :
    (AssignableTo (typeOf (unwrapIface (.vIface (some (.vString "x"))))) .tString = true ∧
      assignValueTo .tString (.vString "") true (.vIface (some (.vString "x")))
        = .ok (.ok (.vString "x"))) ∧
    (assignValueTo (.tScan "scannableObject") (.vScan "scannableObject" none) true
        (.vIface (some (.vString "Hello")))
      = .ok (.ok (.vScan "scannableObject" (some (.vString "Hello"))))) ∧
    ((unwrapIface (GoValue.vIface none)).isInvalid = true ∧
      assignValueTo .tInt (.vInt 0) true (.vIface none)
        = .panic "reflect: call of reflect.Value.Type on zero Value") :=
  ⟨⟨rfl,
    (assignValueTo_coercion_order .tString (.vString "") true
        (.vIface (some (.vString "x")))).1 rfl rfl⟩,
   (assignValueTo_coercion_order (.tScan "scannableObject") (.vScan "scannableObject" none)
        true (.vIface (some (.vString "Hello")))).2.2.2.1 "scannableObject" rfl rfl rfl rfl rfl,
   ⟨rfl,
    (assignValueTo_coercion_order .tInt (.vInt 0) true (.vIface none)).2.2.2.2.2 rfl⟩⟩

/-- C6: evaluation of CallArg on a method with one data slot at nil-shaped
inputs: a typed nil pointer makes the source's early return call the function
with the argument slot still the zero reflect.Value, which panics inside
reflect.Call, and an untyped nil is rejected with the arg-must-be-a-struct
binding error; neither proceeds normally with zero-valued slots. -/
theorem callArg_nil_input_behavior :
    aFieldMethod.CallArg .vCtx (.vPtr structAString none)
      = .panic "reflect: Call using zero Value argument" ∧
    aFieldMethod.CallArg .vCtx (.vIface none)
      = .ok (none, some (.argMustBeStruct "<nil>")) :=
  ⟨rfl, rfl⟩

/-- C4: binding a keyed mapping into a struct-typed data slot matches every
input key against the destination's field names, silently skipping unmatched
keys with no error and coercing matched values into their fields; concretely,
binding the mapping with A = "x" (with or without an extra unknown key Z) into
a slot of type struct with string field A invokes the callable with a record
whose A field is "x". -/
theorem callArg_map_binding :
    (∀ (tfs : List (String × FieldType)) (dst : List (String × GoValue))
        (k : String) (v : GoValue) (rest : List (String × GoValue)),
      tfs.find? (fun p => p.1 == k) = none →
      bindEntries tfs dst ((k, v) :: rest) = bindEntries tfs dst rest) ∧
    (∀ (tfs : List (String × FieldType)) (dst : List (String × GoValue))
        (k : String) (v : GoValue) (rest : List (String × GoValue))
        (ft : FieldType) (v' : GoValue),
      tfs.find? (fun p => p.1 == k) = some (k, ft) →
      assignValueTo ft.toGoType (getField dst k) true v = .ok (.ok v') →
      bindEntries tfs dst ((k, v) :: rest) = bindEntries tfs (setField dst k v') rest) ∧
    Static (.func [structAString] aFieldMethodBody) = .ok aFieldMethod ∧
    aFieldMethod.CallArg .vCtx (.vMap true [("A", .vIface (some (.vString "x")))])
      = .ok (some (.vString "x"), none) ∧
    aFieldMethod.CallArg .vCtx
        (.vMap true [("Z", .vIface (some (.vString "y"))),
                     ("A", .vIface (some (.vString "x")))])
      = .ok (some (.vString "x"), none) := by
  refine ⟨?_, ?_, rfl, rfl, rfl⟩
  · intro tfs dst k v rest h
    simp [bindEntries, h]
  · intro tfs dst k v rest ft v' h1 h2
    simp [bindEntries, h1, h2]

/-- Witness for callArg_map_binding: the unmatched key Z is skipped with no
error, and the matched key A is coerced into its field. -/
theorem callArg_map_binding_witness :
    ([("A", FieldType.fString)].find? (fun p => p.1 == "Z") = none ∧
      bindEntries [("A", .fString)] [("A", .vString "")]
          [("Z", .vIface (some (.vString "y")))]
        = bindEntries [("A", .fString)] [("A", .vString "")] []) ∧
    ([("A", FieldType.fString)].find? (fun p => p.1 == "A") = some ("A", .fString) ∧
      bindEntries [("A", .fString)] [("A", .vString "")]
          [("A", .vIface (some (.vString "x")))]
        = bindEntries [("A", .fString)] (setField [("A", .vString "")] "A" (.vString "x")) []) :=
  ⟨⟨rfl, callArg_map_binding.1 _ _ "Z" _ [] rfl⟩,
   ⟨rfl, callArg_map_binding.2.1 _ _ "A" (.vIface (some (.vString "x"))) []
      .fString (.vString "x") rfl rfl⟩⟩

/-- The last element of a nonempty list, expressed through the tail's last. -/
theorem getLast?_cons_eq {α : Type u} (a : α) (l : List α) :
    (a :: l).getLast? = some (l.getLast?.getD a) := by
  induction l generalizing a with
  | nil => rfl
  | cons c l ih => rw [List.getLast?_cons_cons, ih c, Option.getD_some]

/-- Loop invariant of parseResult: folding parseStep over the returned values
replaces each accumulator component exactly when a value of the matching
classification appears, the last such value winning. -/
theorem foldl_parseStep (res : List RetVal) :
    ∀ acc : Option GoValue × Option PErr,
      res.foldl parseStep acc
        = ((lastOutput res).elim acc.1 some, (lastErrorSlot res).elim acc.2 id) := by
  induction res with
  | nil =>
    intro acc
    simp [lastOutput, lastErrorSlot]
  | cons r rest ih =>
    intro acc
    rw [List.foldl_cons, ih]
    cases r with
    | errVal e =>
      have h1 : lastOutput (.errVal e :: rest) = lastOutput rest := by
        simp [lastOutput, List.filterMap_cons]
      have h2 : lastErrorSlot (.errVal e :: rest)
          = some ((lastErrorSlot rest).getD e) := by
        simp only [lastErrorSlot, List.filterMap_cons]
        exact getLast?_cons_eq e _
      rw [h1, h2]
      cases h : lastErrorSlot rest <;> simp [parseStep, h, Option.elim, Option.getD]
    | outVal v =>
      have h1 : lastOutput (.outVal v :: rest) = some ((lastOutput rest).getD v) := by
        simp only [lastOutput, List.filterMap_cons]
        exact getLast?_cons_eq v _
      have h2 : lastErrorSlot (.outVal v :: rest) = lastErrorSlot rest := by
        simp [lastErrorSlot, List.filterMap_cons]
      rw [h1, h2]
      cases h : lastOutput rest <;> simp [parseStep, h, Option.elim, Option.getD]

/-- C3: parseResult classifies each returned value: every error-typed value
becomes the error result, the last one winning (a nil error slot clearing it),
and every other value folds into the single output result, the last one
winning; the empty and singleton return lists pass through this same
classification uniformly. -/
theorem parseResult_classification (res : List RetVal) :
    parseResult res = (lastOutput res, lastError res) := by
  rw [parseResult, foldl_parseStep res (none, none), lastError]
  cases h1 : lastOutput res <;> cases h2 : lastErrorSlot res <;>
    simp [Option.elim, Option.getD]

/-- Witness for parseResult_classification at a concrete mixed return list. -/
theorem parseResult_classification_witness :
    parseResult [.errVal (some (.userError "e1")), .outVal (.vString "a"),
                 .errVal none, .outVal (.vString "b")]
      = (lastOutput [.errVal (some (.userError "e1")), .outVal (.vString "a"),
                     .errVal none, .outVal (.vString "b")],
         lastError [.errVal (some (.userError "e1")), .outVal (.vString "a"),
                    .errVal none, .outVal (.vString "b")]) :=
  parseResult_classification _

/-- setArgPtrIfPtr leaves the context slot unchanged. -/
theorem setArgPtrIfPtr_ctxPos (t : GoType) (acc : StaticMethod) :
    (setArgPtrIfPtr t acc).ctxPos = acc.ctxPos := by
  cases t <;> rfl

/-- setArgPtrIfPtr leaves the argument slot unchanged. -/
theorem setArgPtrIfPtr_argPos (t : GoType) (acc : StaticMethod) :
    (setArgPtrIfPtr t acc).argPos = acc.argPos := by
  cases t <;> rfl

/-- withArgSlot leaves the context slot unchanged. -/
theorem withArgSlot_ctxPos (acc : StaticMethod) (i : Nat) (t : GoType) :
    (withArgSlot acc i t).ctxPos = acc.ctxPos := by
  cases t <;> rfl

/-- withArgSlot sets the argument slot to the given index. -/
theorem withArgSlot_argPos (acc : StaticMethod) (i : Nat) (t : GoType) :
    (withArgSlot acc i t).argPos = some i := by
  cases t <;> rfl

/-- Invariant of the Static classification loop: it completes without a panic
exactly when the remaining parameters keep the context-slot count and the
data-slot count at most one and every data parameter is a supported struct
shape. -/
theorem staticLoop_isOk (params : List GoType) :
    ∀ (i : Nat) (acc : StaticMethod),
      (staticLoop i params acc).isOk = true ↔
        (params.countP implementsCtx + (if acc.ctxPos.isSome then 1 else 0) ≤ 1 ∧
         params.countP (fun t => !implementsCtx t)
             + (if acc.argPos.isSome then 1 else 0) ≤ 1 ∧
         ∀ t ∈ params, implementsCtx t = false → supportedData t = true) := by
  induction params with
  | nil =>
    intro i acc
    simp only [staticLoop, GoResult.isOk, List.countP_nil, Nat.zero_add,
      List.not_mem_nil, false_implies, implies_true, and_true, true_iff]
    constructor <;> split <;> omega
  | cons t rest ih =>
    intro i acc
    by_cases hc : implementsCtx t = true
    · cases hp : acc.ctxPos with
      | some p =>
        have hred : staticLoop i (t :: rest) acc
            = .panic "method taking multiple ctx arguments" := by
          simp [staticLoop, hc, hp]
        rw [hred]
        simp [GoResult.isOk, List.countP_cons, hc, List.forall_mem_cons, hp]
      | none =>
        have hred : staticLoop i (t :: rest) acc
            = staticLoop (i + 1) rest { acc with ctxPos := some i } := by
          simp [staticLoop, hc, hp]
        rw [hred, ih]
        simp [List.countP_cons, hc, List.forall_mem_cons, hp]
    · by_cases hs : kindStruct (elemOnce t) = true
      · cases hp : acc.argPos with
        | some p =>
          have hred : staticLoop i (t :: rest) acc
              = .panic "method taking multiple arg arguments" := by
            simp [staticLoop, hc, hs, setArgPtrIfPtr_argPos, hp]
          rw [hred]
          simp [GoResult.isOk, List.countP_cons, hc, List.forall_mem_cons, hp]
        | none =>
          have hred : staticLoop i (t :: rest) acc
              = staticLoop (i + 1) rest (withArgSlot acc i t) := by
            simp [staticLoop, hc, hs, setArgPtrIfPtr_argPos, hp]
          rw [hred, ih]
          simp [List.countP_cons, hc, List.forall_mem_cons,
            withArgSlot_ctxPos, withArgSlot_argPos, hp, supportedData, hs]
      · have hred : staticLoop i (t :: rest) acc
            = .panic ("method has unknown type of argument " ++ goTypeRepr (elemOnce t)) := by
          simp [staticLoop, hc, hs]
        rw [hred]
        simp [GoResult.isOk, List.countP_cons, hc, List.forall_mem_cons,
          supportedData, hs]

/-- Static succeeds on a function exactly when at most one parameter is a
context carrier, at most one is a data parameter, and every data parameter is
a supported struct shape. -/
theorem Static_func_isOk (ps : List GoType) (body : List GoValue → List RetVal) :
    (Static (.func ps body)).isOk = true ↔
      (ps.countP implementsCtx ≤ 1 ∧
       ps.countP (fun t => !implementsCtx t) ≤ 1 ∧
       ∀ t ∈ ps, implementsCtx t = false → supportedData t = true) := by
  have h := staticLoop_isOk ps 0
    { fn := body, cnt := ps.length, ctxPos := none, argPos := none,
      arg := none, argPtr := false }
  simpa [Static] using h

/-- C9 (amended): building a descriptor panics in exactly these cases: the
registered value is not a function; the function declares more than one
parameter implementing the context-carrier interface; it declares more than
one data (struct-shaped) parameter; or some non-context parameter is neither a
struct nor a pointer to a struct. All other functions are analyzed
successfully. -/
theorem static_panic_characterization :
    (∀ v, (Static (.nonFunc v)).isPanic = true) ∧
    (∀ (ps : List GoType) (body : List GoValue → List RetVal),
      (Static (.func ps body)).isPanic = true ↔
        (2 ≤ ps.countP implementsCtx ∨
         2 ≤ ps.countP (fun t => !implementsCtx t) ∨
         ∃ t ∈ ps, implementsCtx t = false ∧ supportedData t = false)) := by
  refine ⟨fun v => rfl, fun ps body => ?_⟩
  have hiff := Static_func_isOk ps body
  have hpk : (Static (.func ps body)).isPanic = true
      ↔ ¬ ((Static (.func ps body)).isOk = true) := by
    cases Static (.func ps body) <;> simp [GoResult.isPanic, GoResult.isOk]
  rw [hpk, hiff]
  simp only [not_and_or, Nat.not_le, not_forall, Bool.not_eq_true,
    exists_prop, Classical.not_imp]
  constructor
  · rintro (h | h | ⟨u, hu, h1, h2⟩)
    · exact Or.inl (by omega)
    · exact Or.inr (Or.inl (by omega))
    · exact Or.inr (Or.inr ⟨u, hu, h1, h2⟩)
  · rintro (h | h | ⟨u, hu, h1, h2⟩)
    · exact Or.inl (by omega)
    · exact Or.inr (Or.inl (by omega))
    · exact Or.inr (Or.inr ⟨u, hu, h1, h2⟩)

/-- C9 counterexample: a function taking two struct parameters is a function,
declares no context parameter, and each parameter is a supported struct shape,
yet Static panics (with the multiple-argument message the claim's list of
panic cases does not contain). -/
theorem static_two_data_params_cex :
    (Static (.func [.tStruct "A" [], .tStruct "B" []] (fun _ => []))).isPanic = true ∧
    [GoType.tStruct "A" [], GoType.tStruct "B" []].countP implementsCtx ≤ 1 ∧
    (∀ t ∈ [GoType.tStruct "A" [], GoType.tStruct "B" []],
       implementsCtx t = false → supportedData t = true) :=
  ⟨rfl, by decide, by decide⟩

/-- Witness for static_panic_characterization: a non-function value and a
two-context function both panic. -/
theorem static_panic_characterization_witness :
    (Static (.nonFunc (.vString "not a function"))).isPanic = true ∧
    (Static (.func [.tCtx, .tCtx] (fun _ => []))).isPanic = true :=
  ⟨static_panic_characterization.1 _,
   (static_panic_characterization.2 [.tCtx, .tCtx] (fun _ => [])).mpr
     (Or.inl (by decide))⟩

/-- setChildren installs exactly the given children list. -/
theorem children_setChildren (o : Object) (c : List (String × Object)) :
    (o.setChildren c).children = c := by
  cases o
  rfl

/-- setTyp installs exactly the given type. -/
theorem typ_setTyp (o : Object) (t : GoType) :
    (o.setTyp t).typ = some t := by
  cases o
  rfl

/-- setAction leaves the registered type unchanged. -/
theorem typ_setAction (o : Object) (a : Option ObjectActions) :
    (o.setAction a).typ = o.typ := by
  cases o
  rfl

/-- Rewriting one named entry of an association list commutes with looking
that name up. -/
theorem find?_map_update (l : List (String × Object)) (s : String)
    (g : Object → Object) :
    (l.map (fun pc => if pc.1 == s then (pc.1, g pc.2) else pc)).find?
        (fun p => p.1 == s)
      = (l.find? (fun p => p.1 == s)).map (fun pc => (pc.1, g pc.2)) := by
  induction l with
  | nil => rfl
  | cons p l ih =>
    by_cases hb : (p.1 == s) = true
    · rw [List.map_cons, if_pos hb]
      simp [List.find?_cons, hb]
    · rw [List.map_cons, if_neg hb]
      rw [Bool.not_eq_true] at hb
      simp only [List.find?_cons, hb, ih]

/-- Descending a path after rewriting its terminal node reaches the rewritten
node. -/
theorem lookupGet_lookupSet (segs : List String) :
    ∀ (o : Object) (f : Object → Object),
      lookupGet (lookupSet o segs f) segs = f (lookupGet o segs) := by
  induction segs with
  | nil => intro o f; rfl
  | cons s rest ih =>
    intro o f
    cases h : o.children.find? (fun p => p.1 == s) with
    | some pc =>
      simp only [lookupSet, h, lookupGet, children_setChildren]
      rw [find?_map_update o.children s (fun x => lookupSet x rest f), h,
        Option.map_some']
      exact ih pc.2 f
    | none =>
      simp only [lookupSet, h, lookupGet, children_setChildren,
        List.find?_append, h, Option.none_or, List.find?_cons_of_pos,
        beq_self_eq_true, ih]

/-- A read-only lookup after rewriting the terminal node of a created path
finds the rewritten node. -/
theorem lookup_lookupSet (segs : List String) :
    ∀ (o : Object) (f : Object → Object),
      lookup (lookupSet o segs f) segs = some (f (lookupGet o segs)) := by
  induction segs with
  | nil => intro o f; rfl
  | cons s rest ih =>
    intro o f
    cases h : o.children.find? (fun p => p.1 == s) with
    | some pc =>
      simp only [lookupSet, h, lookup, lookupGet, children_setChildren]
      rw [find?_map_update o.children s (fun x => lookupSet x rest f), h,
        Option.map_some']
      exact ih pc.2 f
    | none =>
      simp only [lookupSet, h, lookup, lookupGet, children_setChildren,
        List.find?_append, h, Option.none_or, List.find?_cons_of_pos,
        beq_self_eq_true, ih]

/-- C7 counterexample: registering T1 at a fresh path succeeds, and a second
registration of the very same T1 at the same path panics, refuting the
idempotent-safe half of the claim. -/
theorem register_same_type_twice_cex :
    Register Registry.empty tT1 "p" = .ok regP1 ∧
    (Register regP1 tT1 "p").isPanic = true :=
  ⟨rfl, rfl⟩

/-- C7 (amended): once a registration at a path has succeeded, every further
Register or RegisterActions at that path panics, whether the new type differs
from the registered one or equals it. -/
theorem register_reregistration_panics (reg reg1 : Registry) (t1 t2 : GoType)
    (name : String) (acts : ObjectActions)
    (h : Register reg t1 name = .ok reg1) :
    (Register reg1 t2 name).isPanic = true ∧
    (RegisterActions reg1 t2 name acts).isPanic = true := by
  simp only [Register] at h
  by_cases hc : (lookupGet reg.root (splitPath name)).typ.isSome = true
  · rw [if_pos hc] at h
    exact absurd h (by simp)
  · rw [if_neg hc] at h
    injection h with h2
    subst h2
    constructor
    · simp [Register, lookupGet_lookupSet, typ_setTyp, GoResult.isPanic]
    · simp [RegisterActions, lookupGet_lookupSet, typ_setTyp, GoResult.isPanic]

/-- Witness for register_reregistration_panics at the concrete registry. -/
theorem register_reregistration_panics_witness :
    Register Registry.empty tT1 "p" = .ok regP1 ∧
    (Register regP1 tT1 "p").isPanic = true ∧
    (RegisterActions regP1 tT1 "p" emptyActions).isPanic = true :=
  ⟨rfl,
   (register_reregistration_panics Registry.empty regP1 tT1 tT1 "p" emptyActions rfl).1,
   (register_reregistration_panics Registry.empty regP1 tT1 tT1 "p" emptyActions rfl).2⟩

/-- C8: after Register of t at a name succeeds, Get on that name yields a
node, GetByType on t yields the very same node, and its New() is a pointer to
a freshly allocated zero value of the registered (pointer-stripped) type. -/
theorem register_resolve_consistency (reg reg1 : Registry) (t : GoType)
    (name : String) (h : Register reg t name = .ok reg1) :
    ∃ o : Object, Get reg1 name = some o ∧ GetByType reg1 t = some o ∧
      o.New = some (.vPtr (stripPtr (.tPtr t)) (some (zeroValue (stripPtr (.tPtr t))))) := by
  simp only [Register] at h
  by_cases hc : (lookupGet reg.root (splitPath name)).typ.isSome = true
  · rw [if_pos hc] at h
    exact absurd h (by simp)
  · rw [if_neg hc] at h
    injection h with h2
    subst h2
    refine ⟨(lookupGet reg.root (splitPath name)).setTyp (stripPtr (.tPtr t)),
      ?_, ?_, ?_⟩
    · simp [Get, lookup_lookupSet]
    · simp [GetByType, List.find?_cons_of_pos, beq_self_eq_true, lookup_lookupSet]
    · simp [Object.New, typ_setTyp]

/-- Witness for register_resolve_consistency at the concrete registry. -/
theorem register_resolve_consistency_witness :
    Register Registry.empty tT1 "p" = .ok regP1 ∧
    (∃ o : Object, Get regP1 "p" = some o ∧ GetByType regP1 tT1 = some o ∧
      o.New = some (.vPtr (stripPtr (.tPtr tT1))
        (some (zeroValue (stripPtr (.tPtr tT1)))))) :=
  ⟨rfl, register_resolve_consistency Registry.empty regP1 tT1 "p" rfl⟩

/-- C2: the generic ById returns the unknown-type sentinel for an unregistered
type, the missing-action sentinel when the resolved node has a nil action set
or a nil Fetch slot, and, when the Fetch invocation succeeds with a result
whose dynamic type is not pointer-to-t, a type-mismatch error whose message
names both the expected and the actual type; each failure returns a nil
value. -/
theorem byId_generic_errors (reg : Registry) (t : GoType) (id : String) :
    (GetByType reg t = none → ById reg t id = (none, some .errUnknownType)) ∧
    (∀ o, GetByType reg t = some o → o.action = none →
      ById reg t id = (none, some .errMissingAction)) ∧
    (∀ o act, GetByType reg t = some o → o.action = some act → act.fetch = none →
      ById reg t id = (none, some .errMissingAction)) ∧
    (∀ o v, GetByType reg t = some o → o.ById id = (some v, none) →
      typeOf v ≠ .tPtr t →
      ById reg t id
        = (none, some (.badFetchType (goTypeRepr (.tPtr t)) (goTypeRepr (typeOf v))))) ∧
    (∀ e a, (PErr.badFetchType e a).message
      = "pobj: bad type returned by Fetch, should have returned a " ++ e
          ++ " but returned a " ++ a) := by
  refine ⟨?_, ?_, ?_, ?_, fun e a => rfl⟩
  · intro h
    simp [ById, h]
  · intro o h1 h2
    simp [ById, h1, Object.ById, h2]
  · intro o act h1 h2 h3
    simp [ById, h1, Object.ById, h2, h3]
  · intro o v h1 h2 h3
    simp [ById, h1, h2, h3]

/-- Witness for byId_generic_errors: the unknown-type case on the empty
registry and the wrong-dynamic-type case on the edge registry. -/
theorem byId_generic_errors_witness :
    (GetByType Registry.empty tBad = none ∧
      ById Registry.empty tBad "any-id" = (none, some .errUnknownType)) ∧
    (GetByType regBad tBad = some oBad ∧
      oBad.ById "any-id" = (some (.vString "wrong type"), none) ∧
      typeOf (GoValue.vString "wrong type") ≠ .tPtr tBad ∧
      ById regBad tBad "any-id"
        = (none, some (.badFetchType (goTypeRepr (.tPtr tBad))
            (goTypeRepr (typeOf (GoValue.vString "wrong type")))))) :=
  ⟨⟨rfl, (byId_generic_errors Registry.empty tBad "any-id").1 rfl⟩,
   ⟨rfl, rfl, by decide,
    (byId_generic_errors regBad tBad "any-id").2.2.2.1 oBad (.vString "wrong type")
      rfl rfl (by decide)⟩⟩

end Pobj
